import Mathlib

/-
Verification development for the qizx bulk-transfer drivers
(src/tools/qz_dump.py and src/tools/qz_restore.py).

The two drivers are shallowly embedded as pure functions from a parsed
configuration, an abstract "world" (the statuses the child processes will
exit with, the list of libraries the database reports), and an interrupt
schedule, to the run's outcome together with the ordered list of
observable controller events (process starts, queue operations, joins,
archiver close).  The remote database and the `bulk` archive module are
external collaborators: only their observable effects on the driver
(events and child exit statuses) are modelled.
-/

/-- Observable events of one driver run, in program order. -/
inductive Event where
  | queueCreated
  | tarQueueCreated
  | tarProcStarted
  | workerStarted (i : Nat)
  | dumpLib (name : String)
  | restoreLib
  | sentinelPut
  | workerJoined (i : Nat)
  | qClosed
  | tarSentinelPut
  | tarJoined
  | archiverClosed
deriving DecidableEq, Repr

/-- Outcome of one driver run: a normal return with an exit code, a
KeyboardInterrupt escaping `main` uncaught, the TypeError raised by the
malformed log-format expression, or the NameError of the restore driver. -/
inductive RunResult where
  | ok (code : Int)
  | uncaughtInterrupt
  | typeError
  | nameError
deriving DecidableEq, Repr

/-- Parsed command line of qz_dump (the fields the control flow reads). -/
structure DumpConfig where
  jobs : Int
  tar : Option String
  gzip : Bool
  bzip2 : Bool
  directory : String
  library : Option String

/-- The environment a dump run observes: the library listing returned by
`d.db.listlib()`, the exit status each worker process will report, and
the exit status of the tar-writer process. -/
structure DumpWorld where
  listlib : List String
  workerStatus : Nat → Int
  tarStatus : Int

/-- Where (if anywhere) a single KeyboardInterrupt reaches the dump
controller: nowhere; during the enumeration loop (after `k` libraries
were dumped, outside any try block, qz_dump.py lines 136-137); during
the sentinel-put loop of the first try block (after `p` puts, lines
144-145); or while joining the tar writer in the second try block
(line 176). -/
inductive DumpInterrupt where
  | noIntr
  | atEnum (k : Nat)
  | atDrain (p : Nat)
  | atTar
deriving DecidableEq, Repr

/-- One step of the controller's status aggregation (qz_dump.py lines
151-162, qz_restore.py lines 120-133).  `none` models the TypeError
raised before `exitcode = 2` is reached: the branch for a child status
of 2 first evaluates `'Fatal error received during upload.' % pr.name`,
a %-format with no conversion specifier applied to a nonempty argument,
which raises `TypeError: not all arguments converted during string
formatting` and escapes the `except KeyboardInterrupt` handler. -/
def updateExit (acc e : Int) : Option Int :=
  if acc = 0 ∧ e = 1 then some 1
  else if acc < 2 ∧ e = 2 then none
  else if acc < 100 ∧ e = 100 then some 100
  else some acc

/-- Left fold of `updateExit`, stopping at the first TypeError. -/
def foldExit (acc : Int) : List Int → Option Int
  | [] => some acc
  | e :: rest =>
    match updateExit acc e with
    | some a => foldExit a rest
    | none => none

/-- The join-and-aggregate loop over the worker processes (qz_dump.py
lines 147-162): each iteration joins the next worker and then folds its
exit status into the aggregate; the TypeError from a status-2 child
aborts the loop after that child's join. -/
def joinWorkers (status : Nat → Int) (acc : Int) : List Nat → List Event × Option Int
  | [] => ([], some acc)
  | i :: rest =>
    match updateExit acc (status i) with
    | some a =>
      let r := joinWorkers status a rest
      (Event.workerJoined i :: r.1, r.2)
    | none => ([Event.workerJoined i], none)

/-- Severity rank of an exit status under the spec's priority
`100 > 2 > 1 > 0`; statuses outside the listed set rank lowest. -/
def severity (e : Int) : Nat :=
  if e = 100 then 3 else if e = 2 then 2 else if e = 1 then 1 else 0

/-- Spec-side aggregation step, following the spec's words
(max-severity-wins): keep whichever status ranks higher. -/
def specStep (acc e : Int) : Int :=
  if severity acc < severity e then e else acc

/-- Spec-side aggregate of a list of child statuses: max-severity-wins
with initial status 0.  This definition follows the spec's wording and
is compared against the code-side fold `foldExit`. -/
def specAggregate (l : List Int) : Int := l.foldl specStep 0

/-- The libraries a dump run iterates over (qz_dump.py lines 131-134):
all libraries listed by the database unless one was named. -/
def dumpLibs (c : DumpConfig) (w : DumpWorld) : List String :=
  match c.library with
  | none => w.listlib
  | some l => [l]

/-- The exit statuses of all children of a multi-job dump run, in the
order the controller folds them: the `jobs - 1` workers in start order,
then the tar writer when a tar path was given. -/
def childStatuses (c : DumpConfig) (w : DumpWorld) : List Int :=
  (List.range (c.jobs - 1).toNat).map w.workerStatus ++
    (if c.tar.isSome then [w.tarStatus] else [])

/-- The tar-writer shutdown block and final close (qz_dump.py lines
172-201), entered with aggregate `acc` once the worker drain finished:
if a tar path was given, put the writer's sentinel, join it and fold its
status (an interrupt during the join instead sets the aggregate to -1 in
the handler, which re-joins the writer); a status-2 writer raises the
same TypeError, which skips `d.archiver.close()`. -/
def dumpAfterDrain (c : DumpConfig) (w : DumpWorld) (intr : DumpInterrupt)
    (ev : List Event) (acc : Int) : List Event × RunResult :=
  if c.tar.isSome then
    match intr with
    | DumpInterrupt.atTar =>
      (ev ++ [Event.tarSentinelPut, Event.tarJoined, Event.archiverClosed],
       RunResult.ok (-1))
    | _ =>
      match updateExit acc w.tarStatus with
      | some v =>
        (ev ++ [Event.tarSentinelPut, Event.tarJoined, Event.archiverClosed],
         RunResult.ok v)
      | none => (ev ++ [Event.tarSentinelPut, Event.tarJoined], RunResult.typeError)
  else (ev ++ [Event.archiverClosed], RunResult.ok acc)

/-- The `if config.jobs > 1` drain block of qz_dump.py (lines 139-170)
followed by the tar block: put one sentinel per started worker, then
join and aggregate them (a KeyboardInterrupt during the put loop stops
the puts, sets the aggregate to -1, and the handler joins every worker);
a TypeError escaping the join loop skips `q.close()`, the tar block, and
the final close. -/
def dumpMultiTail (c : DumpConfig) (w : DumpWorld) (intr : DumpInterrupt)
    (J : Nat) : List Event × RunResult :=
  match intr with
  | DumpInterrupt.atDrain p =>
    dumpAfterDrain c w intr
      (List.replicate (min p J) Event.sentinelPut ++
        (List.range J).map Event.workerJoined ++ [Event.qClosed]) (-1)
  | _ =>
    match (joinWorkers w.workerStatus 0 (List.range J)).2 with
    | none =>
      (List.replicate J Event.sentinelPut ++
        (joinWorkers w.workerStatus 0 (List.range J)).1, RunResult.typeError)
    | some acc =>
      dumpAfterDrain c w intr
        (List.replicate J Event.sentinelPut ++
          (joinWorkers w.workerStatus 0 (List.range J)).1 ++ [Event.qClosed]) acc

/-- Embedding of qz_dump.py `Shell.main` after argument parsing (lines
103-203).  `jobs == 1` constructs a synchronous `bulk.Dump` with no
queue and no child process; otherwise a job queue is created, a
tar-writer process is started when a tar path was given, and
`range(config.jobs - 1)` worker processes are started; both branches
then dump every selected library; only when `jobs > 1` does the drain
block run; `d.archiver.close()` runs last on every path that falls
through, but is skipped when an exception escapes. -/
def dumpMain (c : DumpConfig) (w : DumpWorld) (intr : DumpInterrupt) :
    List Event × RunResult :=
  if c.jobs = 1 then
    match intr with
    | DumpInterrupt.atEnum k =>
      (((dumpLibs c w).take k).map Event.dumpLib, RunResult.uncaughtInterrupt)
    | _ =>
      ((dumpLibs c w).map Event.dumpLib ++ [Event.archiverClosed], RunResult.ok 0)
  else
    let J := (c.jobs - 1).toNat
    let setup := Event.queueCreated ::
      ((if c.tar.isSome then [Event.tarQueueCreated, Event.tarProcStarted] else []) ++
        (List.range J).map Event.workerStarted)
    match intr with
    | DumpInterrupt.atEnum k =>
      (setup ++ ((dumpLibs c w).take k).map Event.dumpLib, RunResult.uncaughtInterrupt)
    | _ =>
      let enum := (dumpLibs c w).map Event.dumpLib
      if 1 < c.jobs then
        let tail := dumpMultiTail c w intr J
        (setup ++ enum ++ tail.1, tail.2)
      else (setup ++ enum ++ [Event.archiverClosed], RunResult.ok 0)

/-- Parsed command line of qz_restore (the fields the control flow reads). -/
structure RestoreConfig where
  jobs : Int
  tar : Option String
  gzip : Bool
  bzip2 : Bool
  directory : String
  library : Option String

/-- Where (if anywhere) a KeyboardInterrupt reaches the restore
controller: nowhere, or during the synchronous `r.restore_lib` call of a
single-job run (qz_restore.py line 109, outside any try block). -/
inductive RestoreInterrupt where
  | noIntr
  | atRestore
deriving DecidableEq, Repr

/-- Embedding of qz_restore.py `Shell.main` after argument parsing
(lines 87-145).  `jobs == 1` assigns `r = bulk.Restore(config.url, a)`
and the run proceeds: `r.restore_lib(config.library)`, the skipped
`jobs > 1` block, `r.archiver.close()`, return 0.  Every other job count
takes the multi-job branch, which creates the queue, starts
`range(config.jobs - 1)` workers, and assigns `d` (line 107) — but line
109 then reads the never-assigned local `r`, so the run dies with an
UnboundLocalError (a NameError) before any sentinel, join, or close;
the drain block at lines 111-141 is unreachable. -/
def restoreMain (c : RestoreConfig) (intr : RestoreInterrupt) :
    List Event × RunResult :=
  if c.jobs = 1 then
    match intr with
    | RestoreInterrupt.atRestore => ([], RunResult.uncaughtInterrupt)
    | _ => ([Event.restoreLib, Event.archiverClosed], RunResult.ok 0)
  else
    (Event.queueCreated ::
      (List.range (c.jobs - 1).toNat).map Event.workerStarted,
     RunResult.nameError)

/-- Events of the tar-writer process. -/
inductive TarWriterEvent where
  | wrote (name : String) (value : String)
  | closedArchive
deriving DecidableEq, Repr

/-- Embedding of `_tar_writer` (qz_dump.py lines 18-33) run against the
given queue contents, without interrupts.  `a = archiver()` opens the
tar stream; each `(name, value)` request is written; the sentinel `None`
makes the function `return` immediately — the `a.close()` on line 27
sits after `while True` and is unreachable, and the `a.close()` on line
33 sits after the `except` handler and is skipped by the `return`, so no
close event is ever produced on this path.  (Only a KeyboardInterrupt,
swallowed by the handler, lets control fall through to line 33.) -/
def tar_writer : List (Option (String × String)) → List TarWriterEvent
  | [] => []
  | none :: _ => []
  | some (n, v) :: rest => TarWriterEvent.wrote n v :: tar_writer rest

/-- The archiver variant and mode the drivers select (qz_dump.py lines
103-107, qz_restore.py lines 87-91). -/
inductive ArchiverKind where
  | tarArchive (path : String) (mode : String)
  | directoryArchive (dir : String)
deriving DecidableEq, Repr

/-- qz_dump.py lines 103-107: with a tar path, the mode is
`"w:gz" if config.gzip else "w:bz2" if config.bzip2 else "w"`. -/
def dumpArchiverChoice (c : DumpConfig) : ArchiverKind :=
  match c.tar with
  | some p =>
    ArchiverKind.tarArchive p
      (if c.gzip then "w:gz" else if c.bzip2 then "w:bz2" else "w")
  | none => ArchiverKind.directoryArchive c.directory

/-- qz_restore.py lines 87-91: with a tar path, the mode is
`"r:gz" if config.gzip else "r:bz2" if config.bzip2 else "r"`. -/
def restoreArchiverChoice (c : RestoreConfig) : ArchiverKind :=
  match c.tar with
  | some p =>
    ArchiverKind.tarArchive p
      (if c.gzip then "r:gz" else if c.bzip2 then "r:bz2" else "r")
  | none => ArchiverKind.directoryArchive c.directory

/-- True on the events that record the start of a worker process. -/
def isWorkerStart : Event → Bool
  | Event.workerStarted _ => true
  | _ => false

/-- Number of worker processes started during a run. -/
def workerStartCount (l : List Event) : Nat := l.countP isWorkerStart

/-- True exactly when the driver returned normally with an exit code. -/
def returnedNormally : RunResult → Bool
  | RunResult.ok _ => true
  | _ => false

/-! ### Helper lemmas -/

theorem count_map_eq_zero {α : Type} (f : α → Event) (l : List α) (e : Event)
    (h : ∀ a, f a ≠ e) : (l.map f).count e = 0 := by
  rw [List.count_eq_zero]
  simp only [List.mem_map, not_exists]
  rintro a ⟨_, ha⟩
  exact h a ha

theorem joinWorkers_fst_mem (s : Nat → Int) (acc : Int) (l : List Nat) :
    ∀ e ∈ (joinWorkers s acc l).1, ∃ i, e = Event.workerJoined i := by
  induction l generalizing acc with
  | nil => simp [joinWorkers]
  | cons i t ih =>
    intro e he
    simp only [joinWorkers] at he
    cases hu : updateExit acc (s i) with
    | none =>
      rw [hu] at he
      simp only [List.mem_singleton] at he
      exact ⟨i, he⟩
    | some a =>
      rw [hu] at he
      simp only [List.mem_cons] at he
      rcases he with rfl | he
      · exact ⟨i, rfl⟩
      · exact ih a e he

theorem count_joinWorkers_eq_zero (s : Nat → Int) (acc : Int) (l : List Nat)
    (e : Event) (h : ∀ i, Event.workerJoined i ≠ e) :
    ((joinWorkers s acc l).1).count e = 0 := by
  rw [List.count_eq_zero]
  intro hm
  obtain ⟨i, rfl⟩ := joinWorkers_fst_mem s acc l e hm
  exact h i rfl

theorem joinWorkers_snd (s : Nat → Int) (acc : Int) (l : List Nat) :
    (joinWorkers s acc l).2 = foldExit acc (l.map s) := by
  induction l generalizing acc with
  | nil => rfl
  | cons i t ih =>
    simp only [joinWorkers, List.map_cons, foldExit]
    cases updateExit acc (s i) with
    | none => rfl
    | some a => exact ih a

theorem joinWorkers_fst_of_complete (s : Nat → Int) (acc : Int) (l : List Nat)
    (h : (joinWorkers s acc l).2.isSome = true) :
    (joinWorkers s acc l).1 = l.map Event.workerJoined := by
  induction l generalizing acc with
  | nil => rfl
  | cons i t ih =>
    simp only [joinWorkers] at h ⊢
    cases hu : updateExit acc (s i) with
    | none => rw [hu] at h; simp at h
    | some a =>
      rw [hu] at h
      simp only [List.map_cons, List.cons.injEq, true_and]
      exact ih a h

theorem foldExit_append (acc : Int) (l1 l2 : List Int) :
    foldExit acc (l1 ++ l2) =
      match foldExit acc l1 with
      | some b => foldExit b l2
      | none => none := by
  induction l1 generalizing acc with
  | nil => rfl
  | cons e t ih =>
    simp only [List.cons_append, foldExit]
    cases updateExit acc e with
    | none => rfl
    | some a => exact ih a

theorem updateExit_agrees_with_spec (acc e : Int)
    (ha : acc = 0 ∨ acc = 1 ∨ acc = 100) (he : e = 0 ∨ e = 1 ∨ e = 100) :
    updateExit acc e = some (specStep acc e) := by
  rcases ha with rfl | rfl | rfl <;> rcases he with rfl | rfl | rfl <;> decide

theorem specStep_closure (acc e : Int)
    (ha : acc = 0 ∨ acc = 1 ∨ acc = 100) (he : e = 0 ∨ e = 1 ∨ e = 100) :
    specStep acc e = 0 ∨ specStep acc e = 1 ∨ specStep acc e = 100 := by
  unfold specStep
  split
  · exact he
  · exact ha

theorem foldExit_eq_foldl_specStep (l : List Int) :
    ∀ acc, (acc = 0 ∨ acc = 1 ∨ acc = 100) → (∀ e ∈ l, e = 0 ∨ e = 1 ∨ e = 100) →
      foldExit acc l = some (l.foldl specStep acc) := by
  induction l with
  | nil => intro acc _ _; rfl
  | cons e t ih =>
    intro acc ha hl
    have he := hl e (by simp)
    simp only [foldExit, List.foldl_cons]
    rw [updateExit_agrees_with_spec acc e ha he]
    exact ih (specStep acc e) (specStep_closure acc e ha he)
      (fun x hx => hl x (by simp [hx]))

/-! ### Claim theorems -/

/-- C3 counterexample: a single-job restore run (jobs = 1, no library
named, so the libraries come from the archive) does assign the restore
handle `r` and completes normally; the claim's prediction that the
synchronous branch leaves the restore handle unassigned is false. -/
theorem restore_single_job_assigns_handle :
    (restoreMain ⟨1, none, false, false, ".", none⟩ RestoreInterrupt.noIntr).2 =
      RunResult.ok 0 ∧
    RunResult.ok 0 ≠ RunResult.nameError := by decide

/-- C3 amended: in the restore driver the unassigned-variable bug sits in
the multi-job branch, not the synchronous one: for every jobs ≠ 1 the
branch assigns `d` while line 109 reads `r`, so the restore call raises
an UnboundLocalError; for jobs = 1 the handle `r` is assigned and the
run completes with exit code 0. -/
theorem restore_handle_misassigned_in_multijob (c : RestoreConfig)
    (hc : c.jobs ≠ 1) (c2 : RestoreConfig) (hc2 : c2.jobs = 1) :
    (restoreMain c RestoreInterrupt.noIntr).2 = RunResult.nameError ∧
    (restoreMain c2 RestoreInterrupt.noIntr).2 = RunResult.ok 0 := by
  constructor
  · simp [restoreMain, hc]
  · simp [restoreMain, hc2]

/-- C3 witness: instantiation at jobs = 8 and jobs = 1. -/
theorem restore_handle_misassigned_in_multijob_witness :
    (restoreMain ⟨8, none, false, false, ".", none⟩ RestoreInterrupt.noIntr).2 =
      RunResult.nameError ∧
    (restoreMain ⟨1, none, false, false, ".", none⟩ RestoreInterrupt.noIntr).2 =
      RunResult.ok 0 :=
  restore_handle_misassigned_in_multijob ⟨8, none, false, false, ".", none⟩
    (by decide) ⟨1, none, false, false, ".", none⟩ (by decide)

/-- C4: on the sentinel path the tar writer exits WITHOUT closing the
archive stream: after writing the queued request it dequeues `None` and
returns; the `a.close()` on line 27 is unreachable (it follows
`while True`) and the `a.close()` on line 33 is skipped by the `return`.
The claim — close the stream, then exit — states the evident intent of
those two dead `a.close()` calls; the code is the slip.  No run of the
uninterrupted writer ever produces a close event. -/
theorem tar_writer_sentinel_skips_close :
    tar_writer [some ("doc.xml", "payload"), none] =
      [TarWriterEvent.wrote "doc.xml" "payload"] ∧
    ∀ q : List (Option (String × String)),
      TarWriterEvent.closedArchive ∉ tar_writer q := by
  constructor
  · rfl
  · intro q
    induction q with
    | nil => simp [tar_writer]
    | cons h t ih =>
      cases h with
      | none => simp [tar_writer]
      | some p =>
        obtain ⟨n, v⟩ := p
        simp only [tar_writer, List.mem_cons]
        rintro (h | h)
        · exact TarWriterEvent.noConfusion h
        · exact ih h

/-- C8: a run with jobs = 1 bypasses queue and worker pool entirely —
the dump trace is exactly the synchronous per-library enumeration
followed by the archiver close (no queue creation, no worker start, no
tar-writer process), and likewise for restore. -/
theorem single_job_bypasses_worker_pool (c : DumpConfig) (w : DumpWorld)
    (hc : c.jobs = 1) (r : RestoreConfig) (hr : r.jobs = 1) :
    (dumpMain c w DumpInterrupt.noIntr).1 =
      (dumpLibs c w).map Event.dumpLib ++ [Event.archiverClosed] ∧
    (dumpMain c w DumpInterrupt.noIntr).2 = RunResult.ok 0 ∧
    (dumpMain c w DumpInterrupt.noIntr).1.count Event.queueCreated = 0 ∧
    workerStartCount (dumpMain c w DumpInterrupt.noIntr).1 = 0 ∧
    (dumpMain c w DumpInterrupt.noIntr).1.count Event.tarProcStarted = 0 ∧
    (restoreMain r RestoreInterrupt.noIntr).1 =
      [Event.restoreLib, Event.archiverClosed] ∧
    (restoreMain r RestoreInterrupt.noIntr).2 = RunResult.ok 0 := by
  have hd : dumpMain c w DumpInterrupt.noIntr =
      ((dumpLibs c w).map Event.dumpLib ++ [Event.archiverClosed],
       RunResult.ok 0) := by
    simp [dumpMain, hc]
  refine ⟨by rw [hd], by rw [hd], ?_, ?_, ?_, by simp [restoreMain, hr],
    by simp [restoreMain, hr]⟩
  · rw [hd, List.count_append,
      count_map_eq_zero _ _ _ (fun s => Event.noConfusion)]
    decide
  · rw [hd]
    unfold workerStartCount
    rw [List.countP_append]
    have h1 : ((dumpLibs c w).map Event.dumpLib).countP isWorkerStart = 0 := by
      rw [List.countP_eq_zero]
      rintro e he
      obtain ⟨s, -, rfl⟩ := List.mem_map.mp he
      simp [isWorkerStart]
    rw [h1]
    decide
  · rw [hd, List.count_append,
      count_map_eq_zero _ _ _ (fun s => Event.noConfusion)]
    decide

/-- C8 witness: instantiation at a concrete single-job configuration. -/
theorem single_job_bypasses_worker_pool_witness :
    (dumpMain ⟨1, some "t.tar", true, false, ".", none⟩ ⟨["a"], fun _ => 0, 0⟩
        DumpInterrupt.noIntr).1 =
      (dumpLibs ⟨1, some "t.tar", true, false, ".", none⟩
        ⟨["a"], fun _ => 0, 0⟩).map Event.dumpLib ++ [Event.archiverClosed] ∧
    (dumpMain ⟨1, some "t.tar", true, false, ".", none⟩ ⟨["a"], fun _ => 0, 0⟩
        DumpInterrupt.noIntr).2 = RunResult.ok 0 ∧
    (dumpMain ⟨1, some "t.tar", true, false, ".", none⟩ ⟨["a"], fun _ => 0, 0⟩
        DumpInterrupt.noIntr).1.count Event.queueCreated = 0 ∧
    workerStartCount (dumpMain ⟨1, some "t.tar", true, false, ".", none⟩
        ⟨["a"], fun _ => 0, 0⟩ DumpInterrupt.noIntr).1 = 0 ∧
    (dumpMain ⟨1, some "t.tar", true, false, ".", none⟩ ⟨["a"], fun _ => 0, 0⟩
        DumpInterrupt.noIntr).1.count Event.tarProcStarted = 0 ∧
    (restoreMain ⟨1, none, false, false, ".", none⟩ RestoreInterrupt.noIntr).1 =
      [Event.restoreLib, Event.archiverClosed] ∧
    (restoreMain ⟨1, none, false, false, ".", none⟩ RestoreInterrupt.noIntr).2 =
      RunResult.ok 0 :=
  single_job_bypasses_worker_pool ⟨1, some "t.tar", true, false, ".", none⟩
    ⟨["a"], fun _ => 0, 0⟩ rfl ⟨1, none, false, false, ".", none⟩ rfl


theorem countP_isWorkerStart_map_dumpLib (l : List String) :
    (l.map Event.dumpLib).countP isWorkerStart = 0 := by
  rw [List.countP_eq_zero]
  rintro e he
  obtain ⟨s, -, rfl⟩ := List.mem_map.mp he
  simp [isWorkerStart]

/-- C9: a dump run with jobs ≤ 0 takes the multi-process branch (the
single-job test is `jobs == 1`), but `range(config.jobs - 1)` is empty,
so zero workers are started and zero job-queue sentinels are enqueued;
the whole drain/aggregation/writer-shutdown block is guarded by
`jobs > 1` and is skipped, so if a tar-writer process was started no
sentinel is ever enqueued for its queue; the run returns exit code 0. -/
theorem nonpositive_jobs_degenerate_run (c : DumpConfig) (w : DumpWorld)
    (hc : c.jobs ≤ 0) :
    workerStartCount (dumpMain c w DumpInterrupt.noIntr).1 = 0 ∧
    (dumpMain c w DumpInterrupt.noIntr).1.count Event.sentinelPut = 0 ∧
    (dumpMain c w DumpInterrupt.noIntr).1.count Event.tarSentinelPut = 0 ∧
    (c.tar.isSome = true →
      Event.tarProcStarted ∈ (dumpMain c w DumpInterrupt.noIntr).1) ∧
    (dumpMain c w DumpInterrupt.noIntr).2 = RunResult.ok 0 := by
  have h1 : ¬ c.jobs = 1 := by omega
  have h2 : ¬ 1 < c.jobs := by omega
  have hJ : (c.jobs - 1).toNat = 0 := Int.toNat_of_nonpos (by omega)
  have hd : dumpMain c w DumpInterrupt.noIntr =
      (Event.queueCreated ::
        ((if c.tar.isSome then [Event.tarQueueCreated, Event.tarProcStarted]
          else []) ++
          ((dumpLibs c w).map Event.dumpLib ++ [Event.archiverClosed])),
       RunResult.ok 0) := by
    simp [dumpMain, h1, h2, hJ]
  refine ⟨?_, ?_, ?_, ?_, by rw [hd]⟩
  · rw [hd]
    unfold workerStartCount
    by_cases htar : c.tar.isSome = true <;>
      simp [htar, List.countP_cons, List.countP_append, isWorkerStart,
        countP_isWorkerStart_map_dumpLib]
  · rw [hd]
    by_cases htar : c.tar.isSome = true <;>
      simp [htar, List.count_cons, List.count_append,
        count_map_eq_zero Event.dumpLib (dumpLibs c w) Event.sentinelPut
          (fun s h => Event.noConfusion h)]
  · rw [hd]
    by_cases htar : c.tar.isSome = true <;>
      simp [htar, List.count_cons, List.count_append,
        count_map_eq_zero Event.dumpLib (dumpLibs c w) Event.tarSentinelPut
          (fun s h => Event.noConfusion h)]
  · rw [hd]
    intro htar
    simp [htar]

/-- C9 witness: instantiation at jobs = 0 with a tar path. -/
theorem nonpositive_jobs_degenerate_run_witness :
    workerStartCount (dumpMain ⟨0, some "t.tar", false, false, ".", none⟩
      ⟨["a"], fun _ => 0, 0⟩ DumpInterrupt.noIntr).1 = 0 ∧
    (dumpMain ⟨0, some "t.tar", false, false, ".", none⟩ ⟨["a"], fun _ => 0, 0⟩
      DumpInterrupt.noIntr).1.count Event.sentinelPut = 0 ∧
    (dumpMain ⟨0, some "t.tar", false, false, ".", none⟩ ⟨["a"], fun _ => 0, 0⟩
      DumpInterrupt.noIntr).1.count Event.tarSentinelPut = 0 ∧
    ((⟨0, some "t.tar", false, false, ".", none⟩ : DumpConfig).tar.isSome = true →
      Event.tarProcStarted ∈ (dumpMain ⟨0, some "t.tar", false, false, ".", none⟩
        ⟨["a"], fun _ => 0, 0⟩ DumpInterrupt.noIntr).1) ∧
    (dumpMain ⟨0, some "t.tar", false, false, ".", none⟩ ⟨["a"], fun _ => 0, 0⟩
      DumpInterrupt.noIntr).2 = RunResult.ok 0 :=
  nonpositive_jobs_degenerate_run ⟨0, some "t.tar", false, false, ".", none⟩
    ⟨["a"], fun _ => 0, 0⟩ (by decide)

/-- C10: when a tar path is given together with both compression flags,
the gzip mode wins — `"w:gz"` for dump and `"r:gz"` for restore — and
the bzip2 flag only takes effect when the gzip flag is unset. -/
theorem gzip_takes_precedence_over_bzip2 (c : DumpConfig) (p : String)
    (hc : c.tar = some p) (hg : c.gzip = true) (hb : c.bzip2 = true)
    (r : RestoreConfig) (q : String)
    (hr : r.tar = some q) (hgr : r.gzip = true) (hbr : r.bzip2 = true)
    (c2 : DumpConfig) (p2 : String) (hc2 : c2.tar = some p2) (hg2 : c2.gzip = false)
    (r2 : RestoreConfig) (q2 : String)
    (hr2 : r2.tar = some q2) (hgr2 : r2.gzip = false) :
    dumpArchiverChoice c = ArchiverKind.tarArchive p "w:gz" ∧
    restoreArchiverChoice r = ArchiverKind.tarArchive q "r:gz" ∧
    dumpArchiverChoice c2 =
      ArchiverKind.tarArchive p2 (if c2.bzip2 then "w:bz2" else "w") ∧
    restoreArchiverChoice r2 =
      ArchiverKind.tarArchive q2 (if r2.bzip2 then "r:bz2" else "r") := by
  refine ⟨?_, ?_, ?_, ?_⟩
  · simp [dumpArchiverChoice, hc, hg]
  · simp [restoreArchiverChoice, hr, hgr]
  · simp [dumpArchiverChoice, hc2, hg2]
  · simp [restoreArchiverChoice, hr2, hgr2]

/-- C10 witness: instantiation at concrete configurations. -/
theorem gzip_takes_precedence_over_bzip2_witness :
    dumpArchiverChoice ⟨8, some "a.tar", true, true, ".", none⟩ =
      ArchiverKind.tarArchive "a.tar" "w:gz" ∧
    restoreArchiverChoice ⟨8, some "b.tar", true, true, ".", none⟩ =
      ArchiverKind.tarArchive "b.tar" "r:gz" ∧
    dumpArchiverChoice ⟨8, some "c.tar", false, true, ".", none⟩ =
      ArchiverKind.tarArchive "c.tar"
        (if (⟨8, some "c.tar", false, true, ".", none⟩ : DumpConfig).bzip2
         then "w:bz2" else "w") ∧
    restoreArchiverChoice ⟨8, some "d.tar", false, false, ".", none⟩ =
      ArchiverKind.tarArchive "d.tar"
        (if (⟨8, some "d.tar", false, false, ".", none⟩ : RestoreConfig).bzip2
         then "r:bz2" else "r") :=
  gzip_takes_precedence_over_bzip2
    ⟨8, some "a.tar", true, true, ".", none⟩ "a.tar" rfl rfl rfl
    ⟨8, some "b.tar", true, true, ".", none⟩ "b.tar" rfl rfl rfl
    ⟨8, some "c.tar", false, true, ".", none⟩ "c.tar" rfl rfl
    ⟨8, some "d.tar", false, false, ".", none⟩ "d.tar" rfl rfl

theorem dumpAfterDrain_fst_cases (c : DumpConfig) (w : DumpWorld)
    (intr : DumpInterrupt) (ev : List Event) (acc : Int) :
    (dumpAfterDrain c w intr ev acc).1 =
      ev ++ [Event.tarSentinelPut, Event.tarJoined, Event.archiverClosed] ∨
    (dumpAfterDrain c w intr ev acc).1 =
      ev ++ [Event.tarSentinelPut, Event.tarJoined] ∨
    (dumpAfterDrain c w intr ev acc).1 = ev ++ [Event.archiverClosed] := by
  unfold dumpAfterDrain
  split
  · split
    · left; rfl
    · split
      · left; rfl
      · right; left; rfl
  · right; right; rfl

theorem dumpAfterDrain_mem (c : DumpConfig) (w : DumpWorld)
    (intr : DumpInterrupt) (ev : List Event) (acc : Int) :
    ∀ e ∈ (dumpAfterDrain c w intr ev acc).1,
      e ∈ ev ∨ e = Event.tarSentinelPut ∨ e = Event.tarJoined ∨
        e = Event.archiverClosed := by
  intro e he
  rcases dumpAfterDrain_fst_cases c w intr ev acc with h | h | h <;> rw [h] at he <;>
    simp only [List.mem_append, List.mem_cons, List.mem_singleton,
      List.not_mem_nil, or_false] at he <;> tauto

theorem dumpMultiTail_mem (c : DumpConfig) (w : DumpWorld)
    (intr : DumpInterrupt) (J : Nat) :
    ∀ e ∈ (dumpMultiTail c w intr J).1,
      e = Event.sentinelPut ∨ (∃ i, e = Event.workerJoined i) ∨
        e = Event.qClosed ∨ e = Event.tarSentinelPut ∨ e = Event.tarJoined ∨
        e = Event.archiverClosed := by
  intro e he
  cases intr
  case atDrain p =>
    simp only [dumpMultiTail] at he
    rcases dumpAfterDrain_mem _ _ _ _ _ e he with hm | h | h | h
    · simp only [List.mem_append, List.mem_replicate, List.mem_map,
        List.mem_singleton] at hm
      rcases hm with (⟨-, rfl⟩ | ⟨i, -, rfl⟩) | rfl
      · tauto
      · exact Or.inr (Or.inl ⟨i, rfl⟩)
      · tauto
    · tauto
    · tauto
    · tauto
  all_goals {
    simp only [dumpMultiTail] at he
    have hjoin : ∀ x ∈ (joinWorkers w.workerStatus 0 (List.range J)).1,
        ∃ i, x = Event.workerJoined i :=
      joinWorkers_fst_mem w.workerStatus 0 (List.range J)
    cases hjw : (joinWorkers w.workerStatus 0 (List.range J)).2 with
    | none =>
      rw [hjw] at he
      simp only [List.mem_append, List.mem_replicate] at he
      rcases he with ⟨-, rfl⟩ | hm
      · tauto
      · rcases hjoin e hm with ⟨i, rfl⟩
        tauto
    | some acc =>
      rw [hjw] at he
      rcases dumpAfterDrain_mem _ _ _ _ _ e he with hm | h | h | h
      · simp only [List.mem_append, List.mem_replicate, List.mem_singleton] at hm
        rcases hm with (⟨-, rfl⟩ | hx) | rfl
        · tauto
        · rcases hjoin e hx with ⟨i, rfl⟩
          tauto
        · tauto
      · tauto
      · tauto
      · tauto
  }

theorem countP_isWorkerStart_map_workerStarted (l : List Nat) :
    (l.map Event.workerStarted).countP isWorkerStart = l.length := by
  induction l with
  | nil => rfl
  | cons i t ih => simp [List.countP_cons, isWorkerStart, ih]

theorem countP_isWorkerStart_comp (l : List Nat) :
    List.countP (isWorkerStart ∘ Event.workerStarted) l = l.length := by
  induction l with
  | nil => rfl
  | cons i t ih => simp [List.countP_cons, isWorkerStart, Function.comp, ih]

theorem workerStartCount_dumpMultiTail (c : DumpConfig) (w : DumpWorld)
    (intr : DumpInterrupt) (J : Nat) :
    workerStartCount (dumpMultiTail c w intr J).1 = 0 := by
  unfold workerStartCount
  rw [List.countP_eq_zero]
  intro e he
  rcases dumpMultiTail_mem c w intr J e he with h | ⟨i, h⟩ | h | h | h | h <;>
    subst h <;> simp [isWorkerStart]

theorem tarProcStarted_not_mem_dumpMultiTail (c : DumpConfig) (w : DumpWorld)
    (intr : DumpInterrupt) (J : Nat) :
    Event.tarProcStarted ∉ (dumpMultiTail c w intr J).1 := by
  intro h
  rcases dumpMultiTail_mem c w intr J _ h with h | ⟨i, h⟩ | h | h | h | h <;>
    simp at h

theorem dumpMain_atEnum_shape (c : DumpConfig) (w : DumpWorld) (k : Nat)
    (h1 : ¬ c.jobs = 1) :
    dumpMain c w (DumpInterrupt.atEnum k) =
      (Event.queueCreated ::
        ((if c.tar.isSome then [Event.tarQueueCreated, Event.tarProcStarted]
          else []) ++
          ((List.range (c.jobs - 1).toNat).map Event.workerStarted ++
            ((dumpLibs c w).take k).map Event.dumpLib)),
       RunResult.uncaughtInterrupt) := by
  simp [dumpMain, h1]

theorem dumpMain_multi_shape (c : DumpConfig) (w : DumpWorld) (intr : DumpInterrupt)
    (hj : 1 < c.jobs) (h2 : ∀ k, intr ≠ DumpInterrupt.atEnum k) :
    dumpMain c w intr =
      (Event.queueCreated ::
        ((if c.tar.isSome then [Event.tarQueueCreated, Event.tarProcStarted]
          else []) ++
          ((List.range (c.jobs - 1).toNat).map Event.workerStarted ++
            ((dumpLibs c w).map Event.dumpLib ++
              (dumpMultiTail c w intr (c.jobs - 1).toNat).1))),
       (dumpMultiTail c w intr (c.jobs - 1).toNat).2) := by
  have h1 : ¬ c.jobs = 1 := by omega
  cases intr
  case atEnum k => exact absurd rfl (h2 k)
  all_goals simp [dumpMain, h1, hj]

/-- C6 amended: every multi-job run starts `configured jobs - 1` worker
processes in tar mode and in directory mode alike (the start loop is
`range(config.jobs - 1)` in both drivers, outside any tar conditional);
what distinguishes tar mode is only the one additional archive-writer
process.  Holds for every interrupt schedule, and for the restore driver
despite its later UnboundLocalError, since workers start first. -/
theorem multi_job_worker_count (c : DumpConfig) (w : DumpWorld)
    (intr : DumpInterrupt) (hj : 1 < c.jobs) (r : RestoreConfig) (hr : 1 < r.jobs) :
    workerStartCount (dumpMain c w intr).1 = (c.jobs - 1).toNat ∧
    ((Event.tarProcStarted ∈ (dumpMain c w intr).1) ↔ c.tar.isSome = true) ∧
    workerStartCount (restoreMain r RestoreInterrupt.noIntr).1 =
      (r.jobs - 1).toNat := by
  have h1 : ¬ c.jobs = 1 := by omega
  have hr1 : ¬ r.jobs = 1 := by omega
  have hrestore : workerStartCount (restoreMain r RestoreInterrupt.noIntr).1 =
      (r.jobs - 1).toNat := by
    simp only [restoreMain, if_neg hr1]
    unfold workerStartCount
    simp [List.countP_cons, countP_isWorkerStart_map_workerStarted,
      countP_isWorkerStart_comp, isWorkerStart]
  have hcount : ∀ tl : List Event, workerStartCount tl = 0 →
      workerStartCount
        (Event.queueCreated ::
          ((if c.tar.isSome then [Event.tarQueueCreated, Event.tarProcStarted]
            else []) ++
            ((List.range (c.jobs - 1).toNat).map Event.workerStarted ++ tl))) =
        (c.jobs - 1).toNat := by
    intro tl htl
    unfold workerStartCount at htl ⊢
    by_cases htar : c.tar.isSome = true <;>
      simp [htar, List.countP_cons, List.countP_append,
        countP_isWorkerStart_map_workerStarted, countP_isWorkerStart_comp,
        isWorkerStart, htl]
  have hmem : ∀ tl : List Event, Event.tarProcStarted ∉ tl →
      ((Event.tarProcStarted ∈
        (Event.queueCreated ::
          ((if c.tar.isSome then [Event.tarQueueCreated, Event.tarProcStarted]
            else []) ++
            ((List.range (c.jobs - 1).toNat).map Event.workerStarted ++ tl)))) ↔
        c.tar.isSome = true) := by
    intro tl htl
    by_cases htar : c.tar.isSome = true <;> simp [htar, htl]
  have hgen : (∀ k, intr ≠ DumpInterrupt.atEnum k) →
      workerStartCount (dumpMain c w intr).1 = (c.jobs - 1).toNat ∧
      ((Event.tarProcStarted ∈ (dumpMain c w intr).1) ↔ c.tar.isSome = true) ∧
      workerStartCount (restoreMain r RestoreInterrupt.noIntr).1 =
        (r.jobs - 1).toNat := by
    intro h2
    rw [dumpMain_multi_shape c w intr hj h2]
    have htl0 : workerStartCount
        ((dumpLibs c w).map Event.dumpLib ++
          (dumpMultiTail c w intr (c.jobs - 1).toNat).1) = 0 := by
      unfold workerStartCount
      rw [List.countP_append]
      have := workerStartCount_dumpMultiTail c w intr (c.jobs - 1).toNat
      unfold workerStartCount at this
      rw [countP_isWorkerStart_map_dumpLib, this]
    have htlm : Event.tarProcStarted ∉
        ((dumpLibs c w).map Event.dumpLib ++
          (dumpMultiTail c w intr (c.jobs - 1).toNat).1) := by
      rw [List.mem_append]
      rintro (h | h)
      · obtain ⟨s, -, hs⟩ := List.mem_map.mp h
        exact Event.noConfusion hs
      · exact tarProcStarted_not_mem_dumpMultiTail c w intr _ h
    exact ⟨hcount _ htl0, hmem _ htlm, hrestore⟩
  cases intr
  case atEnum k =>
    rw [dumpMain_atEnum_shape c w k h1]
    have htl0 : workerStartCount (((dumpLibs c w).take k).map Event.dumpLib) = 0 :=
      countP_isWorkerStart_map_dumpLib _
    have htlm : Event.tarProcStarted ∉ (((dumpLibs c w).take k).map Event.dumpLib) := by
      intro h
      obtain ⟨s, -, hs⟩ := List.mem_map.mp h
      exact Event.noConfusion hs
    exact ⟨hcount _ htl0, hmem _ htlm, hrestore⟩
  all_goals exact hgen (fun k h => DumpInterrupt.noConfusion h)

/-- C6 counterexample: a directory-mode dump with configured jobs = 2
starts exactly 1 worker process, not the 2 the claim predicts for a run
with no archive-writer task. -/
theorem directory_mode_worker_count_counterexample :
    workerStartCount (dumpMain ⟨2, none, false, false, ".", some "L"⟩
      ⟨[], fun _ => 0, 0⟩ DumpInterrupt.noIntr).1 = 1 ∧
    (1 : Nat) ≠ 2 := by decide

/-- C6 witness: instantiation at jobs = 3 (tar dump) and jobs = 2 (restore). -/
theorem multi_job_worker_count_witness :
    workerStartCount (dumpMain ⟨3, some "t.tar", false, false, ".", some "L"⟩
      ⟨[], fun _ => 0, 0⟩ DumpInterrupt.noIntr).1 =
      ((3 : Int) - 1).toNat ∧
    ((Event.tarProcStarted ∈ (dumpMain ⟨3, some "t.tar", false, false, ".", some "L"⟩
      ⟨[], fun _ => 0, 0⟩ DumpInterrupt.noIntr).1) ↔
      (⟨3, some "t.tar", false, false, ".", some "L"⟩ : DumpConfig).tar.isSome = true) ∧
    workerStartCount (restoreMain ⟨2, none, false, false, ".", none⟩
      RestoreInterrupt.noIntr).1 = ((2 : Int) - 1).toNat :=
  multi_job_worker_count ⟨3, some "t.tar", false, false, ".", some "L"⟩
    ⟨[], fun _ => 0, 0⟩ DumpInterrupt.noIntr (by decide)
    ⟨2, none, false, false, ".", none⟩ (by decide)

theorem dumpMultiTail_eq_of_none (c : DumpConfig) (w : DumpWorld)
    (intr : DumpInterrupt) (J : Nat)
    (h2 : ∀ p, intr ≠ DumpInterrupt.atDrain p)
    (hr : (joinWorkers w.workerStatus 0 (List.range J)).2 = none) :
    dumpMultiTail c w intr J =
      (List.replicate J Event.sentinelPut ++
        (joinWorkers w.workerStatus 0 (List.range J)).1, RunResult.typeError) := by
  cases intr
  case atDrain p => exact absurd rfl (h2 p)
  all_goals simp only [dumpMultiTail, hr]

theorem dumpMultiTail_eq_of_some (c : DumpConfig) (w : DumpWorld)
    (intr : DumpInterrupt) (J : Nat) (a : Int)
    (h2 : ∀ p, intr ≠ DumpInterrupt.atDrain p)
    (hr : (joinWorkers w.workerStatus 0 (List.range J)).2 = some a) :
    dumpMultiTail c w intr J =
      dumpAfterDrain c w intr
        (List.replicate J Event.sentinelPut ++
          (joinWorkers w.workerStatus 0 (List.range J)).1 ++ [Event.qClosed]) a := by
  cases intr
  case atDrain p => exact absurd rfl (h2 p)
  all_goals simp only [dumpMultiTail, hr]

theorem count_closed_joinWorkers (s : Nat → Int) (acc : Int) (l : List Nat) :
    ((joinWorkers s acc l).1).count Event.archiverClosed = 0 :=
  count_joinWorkers_eq_zero s acc l Event.archiverClosed
    (fun i h => Event.noConfusion h)

theorem count_closed_replicate_sentinel (n : Nat) :
    (List.replicate n Event.sentinelPut).count Event.archiverClosed = 0 := by
  induction n with
  | zero => rfl
  | succ m ih => simp [List.replicate_succ, List.count_cons, ih]

theorem dumpAfterDrain_closed_count (c : DumpConfig) (w : DumpWorld)
    (intr : DumpInterrupt) (ev : List Event) (acc : Int)
    (hev : ev.count Event.archiverClosed = 0) :
    (dumpAfterDrain c w intr ev acc).1.count Event.archiverClosed =
      (if returnedNormally (dumpAfterDrain c w intr ev acc).2 then 1 else 0) := by
  unfold dumpAfterDrain
  split
  · split
    · simp [List.count_append, hev, returnedNormally]
    · split
      · simp [List.count_append, hev, returnedNormally]
      · simp [List.count_append, hev, returnedNormally]
  · simp [List.count_append, hev, returnedNormally]

theorem dumpMultiTail_closed_count (c : DumpConfig) (w : DumpWorld)
    (intr : DumpInterrupt) (J : Nat) :
    (dumpMultiTail c w intr J).1.count Event.archiverClosed =
      (if returnedNormally (dumpMultiTail c w intr J).2 then 1 else 0) := by
  have hjw : ((joinWorkers w.workerStatus 0 (List.range J)).1).count
      Event.archiverClosed = 0 := count_closed_joinWorkers _ _ _
  have hgen : (∀ p, intr ≠ DumpInterrupt.atDrain p) →
      (dumpMultiTail c w intr J).1.count Event.archiverClosed =
        (if returnedNormally (dumpMultiTail c w intr J).2 then 1 else 0) := by
    intro h2
    obtain ⟨o, ho⟩ : ∃ o, (joinWorkers w.workerStatus 0 (List.range J)).2 = o :=
      ⟨_, rfl⟩
    cases o with
    | none =>
      rw [dumpMultiTail_eq_of_none c w intr J h2 ho]
      simp [List.count_append, count_closed_replicate_sentinel, hjw,
        returnedNormally]
    | some a =>
      rw [dumpMultiTail_eq_of_some c w intr J a h2 ho]
      apply dumpAfterDrain_closed_count
      simp [List.count_append, count_closed_replicate_sentinel, hjw]
  cases intr
  case atDrain p =>
    simp only [dumpMultiTail]
    apply dumpAfterDrain_closed_count
    simp [List.count_append, count_closed_replicate_sentinel,
      count_map_eq_zero Event.workerJoined (List.range J) Event.archiverClosed
        (fun i h => Event.noConfusion h)]
  all_goals exact hgen (fun p h => DumpInterrupt.noConfusion h)

theorem count_closed_take_dumpLib (k : Nat) (l : List String) :
    (List.take k (l.map Event.dumpLib)).count Event.archiverClosed = 0 := by
  rw [List.count_eq_zero]
  intro hm
  obtain ⟨s, -, hs⟩ := List.mem_map.mp (List.mem_of_mem_take hm)
  exact Event.noConfusion hs

/-- C5 amended: the driver-level `archiver.close()` call runs exactly
once on every run on which the controller returns normally — normal
completion, a run whose aggregation completes, and drain- or
tar-phase-interrupted runs — and zero times on every run an exception
escapes: an interrupt during enumeration, the TypeError crash raised by
the malformed warning when a child first reports status 2, and the
multi-job restore's UnboundLocalError.  (In tar multi-job mode the
object closed is the `bulk.TarQueue` proxy; the writer-held tar stream
itself is additionally never closed on the sentinel path, see the
`tar_writer` development.) -/
theorem archiver_close_iff_normal_return (c : DumpConfig) (w : DumpWorld)
    (intr : DumpInterrupt) (r : RestoreConfig) (rintr : RestoreInterrupt) :
    (dumpMain c w intr).1.count Event.archiverClosed =
      (if returnedNormally (dumpMain c w intr).2 then 1 else 0) ∧
    (restoreMain r rintr).1.count Event.archiverClosed =
      (if returnedNormally (restoreMain r rintr).2 then 1 else 0) := by
  have henum : ∀ l : List String,
      (l.map Event.dumpLib).count Event.archiverClosed = 0 :=
    fun l => count_map_eq_zero Event.dumpLib l Event.archiverClosed
      (fun s h => Event.noConfusion h)
  have hws : ∀ l : List Nat,
      (l.map Event.workerStarted).count Event.archiverClosed = 0 :=
    fun l => count_map_eq_zero Event.workerStarted l Event.archiverClosed
      (fun s h => Event.noConfusion h)
  constructor
  · by_cases h1 : c.jobs = 1
    · cases intr <;>
        simp [dumpMain, h1, List.count_append, henum, returnedNormally,
          List.count_cons, count_closed_take_dumpLib]
    · by_cases hj : 1 < c.jobs
      · have hgen : (∀ k, intr ≠ DumpInterrupt.atEnum k) →
            (dumpMain c w intr).1.count Event.archiverClosed =
              (if returnedNormally (dumpMain c w intr).2 then 1 else 0) := by
          intro h2
          rw [dumpMain_multi_shape c w intr hj h2]
          by_cases htar : c.tar.isSome = true <;>
            simp [htar, List.count_cons, List.count_append, henum, hws,
              dumpMultiTail_closed_count]
        cases intr with
        | atEnum k =>
          rw [dumpMain_atEnum_shape c w k h1]
          by_cases htar : c.tar.isSome = true <;>
            simp [htar, List.count_cons, List.count_append, henum, hws,
              returnedNormally, count_closed_take_dumpLib]
        | noIntr => exact hgen (fun k h => DumpInterrupt.noConfusion h)
        | atDrain p => exact hgen (fun k h => DumpInterrupt.noConfusion h)
        | atTar => exact hgen (fun k h => DumpInterrupt.noConfusion h)
      · cases intr <;> by_cases htar : c.tar.isSome = true <;>
          simp [dumpMain, h1, hj, htar, List.count_cons, List.count_append,
            henum, hws, returnedNormally, count_closed_take_dumpLib]
  · by_cases hr1 : r.jobs = 1
    · cases rintr <;> simp [restoreMain, hr1, returnedNormally, List.count_cons]
    · cases rintr <;>
        simp [restoreMain, hr1, returnedNormally, List.count_cons,
          List.count_append, hws]

/-- C5 counterexample: in a dump run whose one worker exits with status
2 — a path the claim explicitly lists — the controller crashes with the
TypeError from the malformed warning format string before reaching
`d.archiver.close()`, so close is invoked zero times, not once. -/
theorem close_skipped_on_status2_counterexample :
    (dumpMain ⟨2, none, false, false, ".", some "L"⟩ ⟨[], fun _ => 2, 0⟩
      DumpInterrupt.noIntr).1.count Event.archiverClosed = 0 ∧
    (dumpMain ⟨2, none, false, false, ".", some "L"⟩ ⟨[], fun _ => 2, 0⟩
      DumpInterrupt.noIntr).2 = RunResult.typeError ∧
    (0 : Nat) ≠ 1 := by decide

theorem dumpAfterDrain_tar_mem (c : DumpConfig) (w : DumpWorld)
    (intr : DumpInterrupt) (ev : List Event) (acc : Int)
    (htar : c.tar.isSome = true) :
    Event.tarSentinelPut ∈ (dumpAfterDrain c w intr ev acc).1 ∧
    Event.tarJoined ∈ (dumpAfterDrain c w intr ev acc).1 := by
  unfold dumpAfterDrain
  rw [if_pos htar]
  split
  · simp
  · split <;> simp

theorem count_sentinel_joinWorkers (s : Nat → Int) (acc : Int) (l : List Nat) :
    ((joinWorkers s acc l).1).count Event.sentinelPut = 0 :=
  count_joinWorkers_eq_zero s acc l Event.sentinelPut
    (fun i h => Event.noConfusion h)

/-- C7 amended: a cancellation received during the drain phase (the
sentinel-put loop) is handled gracefully: the controller stops enqueuing
job-queue sentinels (only the puts made so far remain), joins every
started worker in the handler, and — for tar dump — still enqueues the
writer's sentinel and joins the writer; the aggregate is set to -1 and
the run returns -1, except that the writer's status is still folded
into the -1 aggregate, so a writer status of 100 yields 100 and a writer
status of 2 raises the malformed-format TypeError, which skips the
close.  The archiver is closed exactly when the controller returns
normally.  A cancellation received during the enumeration loop instead
propagates uncaught: the run neither joins nor closes anything. -/
theorem drain_interrupt_graceful (c : DumpConfig) (w : DumpWorld) (p : Nat)
    (hj : 1 < c.jobs) :
    (∀ i < (c.jobs - 1).toNat,
      Event.workerJoined i ∈ (dumpMain c w (DumpInterrupt.atDrain p)).1) ∧
    (dumpMain c w (DumpInterrupt.atDrain p)).1.count Event.sentinelPut =
      min p (c.jobs - 1).toNat ∧
    (c.tar.isSome = true →
      Event.tarSentinelPut ∈ (dumpMain c w (DumpInterrupt.atDrain p)).1 ∧
      Event.tarJoined ∈ (dumpMain c w (DumpInterrupt.atDrain p)).1) ∧
    (dumpMain c w (DumpInterrupt.atDrain p)).2 =
      (if c.tar.isSome then
        match updateExit (-1) w.tarStatus with
        | some v => RunResult.ok v
        | none => RunResult.typeError
       else RunResult.ok (-1)) ∧
    (dumpMain c w (DumpInterrupt.atDrain p)).1.count Event.archiverClosed =
      (if returnedNormally (dumpMain c w (DumpInterrupt.atDrain p)).2
       then 1 else 0) ∧
    (∀ k, (dumpMain c w (DumpInterrupt.atEnum k)).2 =
        RunResult.uncaughtInterrupt ∧
      (dumpMain c w (DumpInterrupt.atEnum k)).1.count Event.archiverClosed = 0) := by
  have h1 : ¬ c.jobs = 1 := by omega
  have h2 : ∀ k, DumpInterrupt.atDrain p ≠ DumpInterrupt.atEnum k :=
    fun k h => DumpInterrupt.noConfusion h
  have hshape := dumpMain_multi_shape c w (DumpInterrupt.atDrain p) hj h2
  set J := (c.jobs - 1).toNat with hJ
  have htail : dumpMultiTail c w (DumpInterrupt.atDrain p) J =
      dumpAfterDrain c w (DumpInterrupt.atDrain p)
        (List.replicate (min p J) Event.sentinelPut ++
          (List.range J).map Event.workerJoined ++ [Event.qClosed]) (-1) := rfl
  have henum : ∀ (e : Event), (∀ s, Event.dumpLib s ≠ e) →
      ((dumpLibs c w).map Event.dumpLib).count e = 0 :=
    fun e he => count_map_eq_zero Event.dumpLib (dumpLibs c w) e he
  refine ⟨?_, ?_, ?_, ?_, ?_, ?_⟩
  · intro i hi
    have hm : Event.workerJoined i ∈
        (dumpMultiTail c w (DumpInterrupt.atDrain p) J).1 := by
      rw [htail]
      rcases dumpAfterDrain_fst_cases c w (DumpInterrupt.atDrain p)
          (List.replicate (min p J) Event.sentinelPut ++
            (List.range J).map Event.workerJoined ++ [Event.qClosed]) (-1)
        with h | h | h <;> rw [h] <;> simp [List.mem_append] <;> omega
    rw [hshape]
    simp only [List.mem_cons, List.mem_append]
    tauto
  · rw [hshape]
    have hcount_tail :
        (dumpMultiTail c w (DumpInterrupt.atDrain p) J).1.count
          Event.sentinelPut = min p J := by
      rw [htail]
      rcases dumpAfterDrain_fst_cases c w (DumpInterrupt.atDrain p)
          (List.replicate (min p J) Event.sentinelPut ++
            (List.range J).map Event.workerJoined ++ [Event.qClosed]) (-1)
        with h | h | h <;> rw [h] <;>
        simp [List.count_append, List.count_replicate_self, List.count_cons,
          count_map_eq_zero Event.workerJoined (List.range J) Event.sentinelPut
            (fun i hh => Event.noConfusion hh)]
    by_cases htar : c.tar.isSome = true <;>
      simp [htar, List.count_cons, List.count_append, hcount_tail,
        henum Event.sentinelPut (fun s hh => Event.noConfusion hh),
        count_map_eq_zero Event.workerStarted (List.range J) Event.sentinelPut
          (fun i hh => Event.noConfusion hh)]
  · intro htar
    have hm := dumpAfterDrain_tar_mem c w (DumpInterrupt.atDrain p)
      (List.replicate (min p J) Event.sentinelPut ++
        (List.range J).map Event.workerJoined ++ [Event.qClosed]) (-1) htar
    rw [← htail] at hm
    rw [hshape]
    constructor <;> simp only [List.mem_cons, List.mem_append] <;> tauto
  · rw [hshape]
    rw [show (dumpMultiTail c w (DumpInterrupt.atDrain p) J).2 =
        (dumpAfterDrain c w (DumpInterrupt.atDrain p)
          (List.replicate (min p J) Event.sentinelPut ++
            (List.range J).map Event.workerJoined ++ [Event.qClosed]) (-1)).2
      from rfl]
    unfold dumpAfterDrain
    by_cases htar : c.tar.isSome = true
    · rw [if_pos htar, if_pos htar]
      obtain ⟨o, ho⟩ : ∃ o, updateExit (-1) w.tarStatus = o := ⟨_, rfl⟩
      rw [ho]
      cases o <;> rfl
    · rw [if_neg htar, if_neg htar]
  · rw [hshape]
    by_cases htar : c.tar.isSome = true <;>
      simp [htar, List.count_cons, List.count_append,
        henum Event.archiverClosed (fun s hh => Event.noConfusion hh),
        count_map_eq_zero Event.workerStarted (List.range J) Event.archiverClosed
          (fun i hh => Event.noConfusion hh),
        dumpMultiTail_closed_count]
  · intro k
    rw [dumpMain_atEnum_shape c w k h1]
    refine ⟨rfl, ?_⟩
    have hws0 : ∀ l : List Nat,
        (l.map Event.workerStarted).count Event.archiverClosed = 0 :=
      fun l => count_map_eq_zero Event.workerStarted l Event.archiverClosed
        (fun i hh => Event.noConfusion hh)
    by_cases htar : c.tar.isSome = true <;>
      simp [htar, List.count_cons, List.count_append,
        count_closed_take_dumpLib, hws0]

/-- C7 counterexample: an interrupt received during the enumeration loop
(line 136-137, outside any try block) while 2 started workers are
outstanding propagates uncaught: no worker is joined and the archiver is
never closed, contradicting the claim for that cancellation point. -/
theorem interrupt_during_enumeration_counterexample :
    (dumpMain ⟨3, none, false, false, ".", some "L"⟩ ⟨[], fun _ => 0, 0⟩
      (DumpInterrupt.atEnum 0)).2 = RunResult.uncaughtInterrupt ∧
    workerStartCount (dumpMain ⟨3, none, false, false, ".", some "L"⟩
      ⟨[], fun _ => 0, 0⟩ (DumpInterrupt.atEnum 0)).1 = 2 ∧
    Event.workerJoined 0 ∉ (dumpMain ⟨3, none, false, false, ".", some "L"⟩
      ⟨[], fun _ => 0, 0⟩ (DumpInterrupt.atEnum 0)).1 ∧
    (dumpMain ⟨3, none, false, false, ".", some "L"⟩ ⟨[], fun _ => 0, 0⟩
      (DumpInterrupt.atEnum 0)).1.count Event.archiverClosed = 0 := by decide

/-- C7 witness: instantiation at a tar dump with jobs = 2, writer status
1, interrupted at the start of the sentinel-put loop. -/
theorem drain_interrupt_graceful_witness :
    (dumpMain ⟨2, some "t.tar", false, false, ".", some "L"⟩ ⟨[], fun _ => 0, 1⟩
      (DumpInterrupt.atDrain 0)).2 =
      (if (⟨2, some "t.tar", false, false, ".", some "L"⟩ : DumpConfig).tar.isSome
       then
        match updateExit (-1) (⟨[], fun _ => 0, 1⟩ : DumpWorld).tarStatus with
        | some v => RunResult.ok v
        | none => RunResult.typeError
       else RunResult.ok (-1)) :=
  (drain_interrupt_graceful ⟨2, some "t.tar", false, false, ".", some "L"⟩
    ⟨[], fun _ => 0, 1⟩ 0 (by decide)).2.2.2.1

theorem countP_isWorkerStart_replicate_sentinel (n : Nat) :
    (List.replicate n Event.sentinelPut).countP isWorkerStart = 0 := by
  induction n with
  | zero => rfl
  | succ m ih => simp [List.replicate_succ, List.countP_cons, isWorkerStart, ih]

theorem countP_isWorkerStart_map_workerJoined (l : List Nat) :
    (l.map Event.workerJoined).countP isWorkerStart = 0 := by
  rw [List.countP_eq_zero]
  rintro e he
  obtain ⟨i, -, rfl⟩ := List.mem_map.mp he
  simp [isWorkerStart]

theorem countP_isWorkerStart_comp_workerJoined (l : List Nat) :
    List.countP (isWorkerStart ∘ Event.workerJoined) l = 0 := by
  induction l with
  | nil => rfl
  | cons i t ih => simp [List.countP_cons, isWorkerStart, Function.comp, ih]

theorem count_tarSentinel_replicate_sentinel (n : Nat) :
    (List.replicate n Event.sentinelPut).count Event.tarSentinelPut = 0 := by
  induction n with
  | zero => rfl
  | succ m ih => simp [List.replicate_succ, List.count_cons, ih]

/-- C2 amended: in every multi-job tar dump run with no interrupt whose
status aggregation completes without the status-2 TypeError, the
controller enqueues exactly J = jobs - 1 job-queue sentinels — one per
started worker — and exactly one archive-queue sentinel, which appears
in the trace strictly after every worker's join (the writer can never
observe its sentinel before the last worker is joined); an interrupted
run enqueues only the job sentinels put before the interrupt, and a run
crashed by the aggregation TypeError never enqueues the archive
sentinel at all. -/
theorem dump_sentinel_discipline (c : DumpConfig) (w : DumpWorld)
    (hj : 1 < c.jobs) (ht : c.tar.isSome = true)
    (hok : ((joinWorkers w.workerStatus 0
      (List.range (c.jobs - 1).toNat)).2).isSome = true) :
    (dumpMain c w DumpInterrupt.noIntr).1.count Event.sentinelPut =
      (c.jobs - 1).toNat ∧
    workerStartCount (dumpMain c w DumpInterrupt.noIntr).1 =
      (c.jobs - 1).toNat ∧
    (dumpMain c w DumpInterrupt.noIntr).1.count Event.tarSentinelPut = 1 ∧
    ∃ l1 l2, (dumpMain c w DumpInterrupt.noIntr).1 =
        l1 ++ Event.tarSentinelPut :: l2 ∧
      (∀ i < (c.jobs - 1).toNat, Event.workerJoined i ∈ l1) ∧
      Event.tarSentinelPut ∉ l1 := by
  have h1 : ¬ c.jobs = 1 := by omega
  have h2 : ∀ k, DumpInterrupt.noIntr ≠ DumpInterrupt.atEnum k :=
    fun k h => DumpInterrupt.noConfusion h
  have h3 : ∀ p, DumpInterrupt.noIntr ≠ DumpInterrupt.atDrain p :=
    fun p h => DumpInterrupt.noConfusion h
  have hshape := dumpMain_multi_shape c w DumpInterrupt.noIntr hj h2
  obtain ⟨J, hJ⟩ : ∃ n, (c.jobs - 1).toNat = n := ⟨_, rfl⟩
  rw [hJ] at hok hshape
  simp only [hJ]
  obtain ⟨a, ho⟩ := Option.isSome_iff_exists.mp hok
  have htail := dumpMultiTail_eq_of_some c w DumpInterrupt.noIntr J a h3 ho
  have hfst := joinWorkers_fst_of_complete w.workerStatus 0 (List.range J) hok
  have hsplit : ∃ rest : List Event,
      (dumpMultiTail c w DumpInterrupt.noIntr J).1 =
        (List.replicate J Event.sentinelPut ++
          (List.range J).map Event.workerJoined ++ [Event.qClosed]) ++
          Event.tarSentinelPut :: Event.tarJoined :: rest ∧
      (rest = [] ∨ rest = [Event.archiverClosed]) := by
    obtain ⟨o, hoo⟩ : ∃ o, updateExit a w.tarStatus = o := ⟨_, rfl⟩
    cases o with
    | some v =>
      refine ⟨[Event.archiverClosed], ?_, Or.inr rfl⟩
      rw [htail, hfst]
      simp only [dumpAfterDrain, ht, hoo]
      simp
    | none =>
      refine ⟨[], ?_, Or.inl rfl⟩
      rw [htail, hfst]
      simp only [dumpAfterDrain, ht, hoo]
      simp
  obtain ⟨rest, hre, hrcases⟩ := hsplit
  have hrest_sp : rest.count Event.sentinelPut = 0 := by
    rcases hrcases with rfl | rfl <;> decide
  have hrest_tsp : rest.count Event.tarSentinelPut = 0 := by
    rcases hrcases with rfl | rfl <;> decide
  refine ⟨?_, ?_, ?_, ?_⟩
  · rw [hshape]
    simp [ht, List.count_cons, List.count_append, hre,
      List.count_replicate_self, hrest_sp,
      count_map_eq_zero Event.dumpLib (dumpLibs c w) Event.sentinelPut
        (fun s hh => Event.noConfusion hh),
      count_map_eq_zero Event.workerStarted (List.range J) Event.sentinelPut
        (fun i hh => Event.noConfusion hh),
      count_map_eq_zero Event.workerJoined (List.range J) Event.sentinelPut
        (fun i hh => Event.noConfusion hh)]
  · rw [hshape]
    unfold workerStartCount
    rcases hrcases with rfl | rfl <;>
      simp [ht, List.countP_cons, List.countP_append, hre,
        countP_isWorkerStart_map_dumpLib, countP_isWorkerStart_map_workerStarted,
        countP_isWorkerStart_comp, countP_isWorkerStart_map_workerJoined,
        countP_isWorkerStart_comp_workerJoined,
        countP_isWorkerStart_replicate_sentinel, isWorkerStart]
  · rw [hshape]
    simp [ht, List.count_cons, List.count_append, hre, hrest_tsp,
      count_map_eq_zero Event.dumpLib (dumpLibs c w) Event.tarSentinelPut
        (fun s hh => Event.noConfusion hh),
      count_map_eq_zero Event.workerStarted (List.range J) Event.tarSentinelPut
        (fun i hh => Event.noConfusion hh),
      count_map_eq_zero Event.workerJoined (List.range J) Event.tarSentinelPut
        (fun i hh => Event.noConfusion hh),
      count_tarSentinel_replicate_sentinel]
  · refine ⟨Event.queueCreated ::
      ([Event.tarQueueCreated, Event.tarProcStarted] ++
        ((List.range J).map Event.workerStarted ++
          ((dumpLibs c w).map Event.dumpLib ++
            (List.replicate J Event.sentinelPut ++
              (List.range J).map Event.workerJoined ++ [Event.qClosed])))),
      Event.tarJoined :: rest, ?_, ?_, ?_⟩
    · rw [hshape]
      simp [ht, hre, List.append_assoc]
    · intro i hi
      simp [List.mem_append]
      omega
    · simp [List.mem_append, List.mem_replicate]

/-- C2 counterexample: in a tar dump run whose single worker exits with
status 2, the aggregation TypeError escapes before the tar block, so the
archive-queue sentinel is never enqueued — the claim promises exactly
one for every multi-job tar dump run. -/
theorem tar_sentinel_missing_counterexample :
    (dumpMain ⟨2, some "t.tar", false, false, ".", some "L"⟩
      ⟨[], fun _ => 2, 0⟩ DumpInterrupt.noIntr).1.count Event.tarSentinelPut = 0 ∧
    (0 : Nat) ≠ 1 := by decide

/-- C2 witness: instantiation at a tar dump with jobs = 3 whose two
workers exit 0. -/
theorem dump_sentinel_discipline_witness :
    (dumpMain ⟨3, some "t.tar", false, false, ".", some "L"⟩
      ⟨[], fun _ => 0, 0⟩ DumpInterrupt.noIntr).1.count Event.sentinelPut =
      ((3 : Int) - 1).toNat :=
  (dump_sentinel_discipline ⟨3, some "t.tar", false, false, ".", some "L"⟩
    ⟨[], fun _ => 0, 0⟩ (by decide) rfl (by decide)).1

/-- C1 amended: the final exit code of an uninterrupted multi-job dump
run is the left fold of the aggregation step over all child statuses
(workers in start order, then the tar writer): the step raises 0 to 1 on
a child status 1 and any aggregate below 100 to 100 on a child status
100, leaves every other status — including -1 — unchanged, and on a
child status 2 seen while the aggregate is below 2 the malformed warning
format raises TypeError and the controller crashes with no exit code at
all.  Restricted to child statuses in 0/1/100 the fold coincides with
the spec's max-severity-wins aggregate; in particular statuses 0,1 give
1, but 0,1,2 and 1,2,100 crash rather than give 2 and 100, and a run
containing a child status -1 does not yield -1.  A controller interrupt
during the drain sets the aggregate to -1, which a later tar-writer
status of 100 replaces with 100, and a tar-writer status of 2 turns
into the same TypeError crash. -/
theorem dump_exit_code_aggregation (c : DumpConfig) (w : DumpWorld) (p : Nat)
    (hj : 1 < c.jobs) :
    ((dumpMain c w DumpInterrupt.noIntr).2 =
      (match foldExit 0 (childStatuses c w) with
       | some v => RunResult.ok v
       | none => RunResult.typeError)) ∧
    (∀ a : Int, updateExit a (-1) = some a) ∧
    (∀ a : Int, a < 2 → updateExit a 2 = none) ∧
    (∀ l : List Int, (∀ e ∈ l, e = 0 ∨ e = 1 ∨ e = 100) →
      foldExit 0 l = some (specAggregate l)) ∧
    ((dumpMain c w (DumpInterrupt.atDrain p)).2 =
      (if c.tar.isSome then
        match updateExit (-1) w.tarStatus with
        | some v => RunResult.ok v
        | none => RunResult.typeError
       else RunResult.ok (-1))) := by
  have h1 : ¬ c.jobs = 1 := by omega
  have h2 : ∀ k, DumpInterrupt.noIntr ≠ DumpInterrupt.atEnum k :=
    fun k h => DumpInterrupt.noConfusion h
  have h3 : ∀ q, DumpInterrupt.noIntr ≠ DumpInterrupt.atDrain q :=
    fun q h => DumpInterrupt.noConfusion h
  refine ⟨?_, ?_, ?_, ?_, ?_⟩
  · rw [dumpMain_multi_shape c w DumpInterrupt.noIntr hj h2]
    show (dumpMultiTail c w DumpInterrupt.noIntr (c.jobs - 1).toNat).2 = _
    unfold childStatuses
    obtain ⟨J, hJ⟩ : ∃ n, (c.jobs - 1).toNat = n := ⟨_, rfl⟩
    rw [hJ]
    have hjw := joinWorkers_snd w.workerStatus 0 (List.range J)
    obtain ⟨o, ho⟩ : ∃ o, (joinWorkers w.workerStatus 0 (List.range J)).2 = o :=
      ⟨_, rfl⟩
    rw [ho] at hjw
    cases o with
    | none =>
      rw [dumpMultiTail_eq_of_none c w DumpInterrupt.noIntr J h3 ho,
        foldExit_append, ← hjw]
    | some a =>
      rw [dumpMultiTail_eq_of_some c w DumpInterrupt.noIntr J a h3 ho,
        foldExit_append, ← hjw]
      obtain ⟨o2, ho2⟩ : ∃ o2, updateExit a w.tarStatus = o2 := ⟨_, rfl⟩
      by_cases htar : c.tar.isSome = true
      · simp only [htar, if_true, dumpAfterDrain, foldExit, ho2]
        cases o2 with
        | none => rfl
        | some v => rfl
      · simp only [htar, if_false, dumpAfterDrain, List.append_nil, foldExit]
        rfl
  · intro a
    unfold updateExit
    norm_num
  · intro a ha
    unfold updateExit
    rw [if_neg (by norm_num), if_pos ⟨ha, rfl⟩]
  · intro l hl
    exact foldExit_eq_foldl_specStep l 0 (Or.inl rfl) hl
  · rw [dumpMain_multi_shape c w (DumpInterrupt.atDrain p) hj
      (fun k h => DumpInterrupt.noConfusion h)]
    show (dumpMultiTail c w (DumpInterrupt.atDrain p) (c.jobs - 1).toNat).2 = _
    rw [show dumpMultiTail c w (DumpInterrupt.atDrain p) (c.jobs - 1).toNat =
      dumpAfterDrain c w (DumpInterrupt.atDrain p)
        (List.replicate (min p (c.jobs - 1).toNat) Event.sentinelPut ++
          (List.range (c.jobs - 1).toNat).map Event.workerJoined ++
          [Event.qClosed]) (-1) from rfl]
    unfold dumpAfterDrain
    by_cases htar : c.tar.isSome = true
    · rw [if_pos htar, if_pos htar]
      obtain ⟨o, ho⟩ : ∃ o, updateExit (-1) w.tarStatus = o := ⟨_, rfl⟩
      rw [ho]
      cases o <;> rfl
    · rw [if_neg htar, if_neg htar]

/-- C1 counterexample: child statuses 0,1,2 make the controller crash
with the format-string TypeError instead of exiting 2, and a run whose
only child exits -1 returns 0, not -1. -/
theorem max_severity_counterexample :
    (dumpMain ⟨4, none, false, false, ".", some "L"⟩
      ⟨[], fun i => if i = 0 then 0 else if i = 1 then 1 else 2, 0⟩
      DumpInterrupt.noIntr).2 = RunResult.typeError ∧
    RunResult.typeError ≠ RunResult.ok 2 ∧
    (dumpMain ⟨2, none, false, false, ".", some "L"⟩ ⟨[], fun _ => -1, 0⟩
      DumpInterrupt.noIntr).2 = RunResult.ok 0 ∧
    RunResult.ok 0 ≠ RunResult.ok (-1) := by decide

/-- C1 witness: instantiation at a directory dump with jobs = 3 whose
two workers exit 0 and 1 (the exit code is then 1, as the fold says). -/
theorem dump_exit_code_aggregation_witness :
    (dumpMain ⟨3, none, false, false, ".", some "L"⟩
      ⟨[], fun i => if i = 0 then 0 else 1, 0⟩ DumpInterrupt.noIntr).2 =
      (match foldExit 0 (childStatuses ⟨3, none, false, false, ".", some "L"⟩
          ⟨[], fun i => if i = 0 then 0 else 1, 0⟩) with
       | some v => RunResult.ok v
       | none => RunResult.typeError) :=
  (dump_exit_code_aggregation ⟨3, none, false, false, ".", some "L"⟩
    ⟨[], fun i => if i = 0 then 0 else 1, 0⟩ 0 (by decide)).1
